import Mathlib

/-!
Verification of the `HeroCarousel` component
(src/src/components/HeroCarousel.tsx).

The component keeps seven pieces of React state (lines 37-49), advances the
carousel with a repeating interval timer (lines 52-60), and commits a
transition in `handleAnimationComplete` (lines 63-70).  We embed the state as
a record, the timer callback and the completion handler as pure state
transformers, and the React effect/timer lifecycle as a small operational
model for the temporal claims.
-/

/-- Image paths of the carousel (source lines 11-15). -/
def images : List String :=
  ["/heroContainer/heroPic1.jpg",
   "/heroContainer/heroPic2.jpg",
   "/heroContainer/heroPic3.jpg"]

/-- Duration of each slide in milliseconds (source line 18). -/
def SLIDE_DURATION : Nat := 3000

/-- Project names paired with the hero images (source lines 21-25). -/
def projectNames : List String :=
  ["Indian Beauty", "Divine Culture", "Modern kick"]

/-- Navigation menu items (source line 28). -/
def navItems : List String := ["Overview", "Projects", "Categories", "Motion"]

/-- The React state of the component: `current`, `direction`,
`isTransitioning`, `next`, `displayedIndex`, `hoveredNav`, `hoveredMe`
(source lines 37-49).  `next = none` models the TypeScript value `null`. -/
structure CarouselState where
  current : Nat
  direction : Int
  isTransitioning : Bool
  next : Option Nat
  displayedIndex : Nat
  hoveredNav : Option Nat
  hoveredMe : Bool
deriving Repr, DecidableEq

/-- The initial state of the component: every `useState` initialiser
(source lines 37-49). -/
def initialState : CarouselState :=
  { current := 0
    direction := 1
    isTransitioning := false
    next := none
    displayedIndex := 0
    hoveredNav := none
    hoveredMe := false }

/-- The body of the `setInterval` callback of the slide-advance effect
(source lines 53-58): set direction to 1, set `next` and `displayedIndex`
to `(current + 1) % images.length`, and mark the transition as started. -/
def intervalTick (s : CarouselState) : CarouselState :=
  { s with
    direction := 1
    next := some ((s.current + 1) % images.length)
    isTransitioning := true
    displayedIndex := (s.current + 1) % images.length }

/-- The animation-completion handler (source lines 63-70): if `next` is not
null, commit `current := next`, clear `next`, end the transition, and
re-confirm `displayedIndex`; otherwise do nothing. -/
def handleAnimationComplete (s : CarouselState) : CarouselState :=
  match s.next with
  | some n =>
      { s with
        current := n
        next := none
        isTransitioning := false
        displayedIndex := n }
  | none => s

/-- The `onMouseEnter` handler of a navigation item (source line 135). -/
def navItemMouseEnter (idx : Nat) (s : CarouselState) : CarouselState :=
  { s with hoveredNav := some idx }

/-- The `onMouseLeave` handler of a navigation item (source line 136). -/
def navItemMouseLeave (s : CarouselState) : CarouselState :=
  { s with hoveredNav := none }

/-- The `onMouseEnter` handler of the More about ME label (source line 198). -/
def moreAboutMeMouseEnter (s : CarouselState) : CarouselState :=
  { s with hoveredMe := true }

/-- The `onMouseLeave` handler of the More about ME label (source line 199). -/
def moreAboutMeMouseLeave (s : CarouselState) : CarouselState :=
  { s with hoveredMe := false }

/-- Events that mutate the carousel fields: a scheduler tick and an
animation-completion callback. -/
inductive CarouselEvent where
  | tick
  | animationComplete
deriving Repr, DecidableEq

/-- Effect of one event on the carousel state. -/
def applyEvent : CarouselEvent → CarouselState → CarouselState
  | CarouselEvent.tick, s => intervalTick s
  | CarouselEvent.animationComplete, s => handleAnimationComplete s

/-- States reachable from the initial state by scheduler ticks and
completion-handler calls, in any order. -/
inductive Reachable : CarouselState → Prop
  | init : Reachable initialState
  | step (e : CarouselEvent) (s : CarouselState) :
      Reachable s → Reachable (applyEvent e s)

/-- Validity of the pending slide: when `next` holds an index, that index is
in range and distinct from `current`. -/
def validNext (s : CarouselState) : Prop :=
  match s.next with
  | none => True
  | some n => n < images.length ∧ n ≠ s.current

/-- Agreement of the indicator index with the transition phase:
`displayedIndex` equals the pending `next` while transitioning and equals
`current` while idle. -/
def displayTracks (s : CarouselState) : Prop :=
  match s.isTransitioning with
  | true => s.next = some s.displayedIndex
  | false => s.displayedIndex = s.current

/-- The combined state invariant maintained by ticks and completions. -/
def CarouselInv (s : CarouselState) : Prop :=
  s.current < images.length ∧
  s.isTransitioning = s.next.isSome ∧
  validNext s ∧
  displayTracks s ∧
  s.displayedIndex < images.length

lemma carouselInv_initial : CarouselInv initialState := by
  refine ⟨?_, rfl, trivial, rfl, ?_⟩ <;> simp [initialState, images]

lemma carouselInv_tick {s : CarouselState} (h : CarouselInv s) :
    CarouselInv (intervalTick s) := by
  obtain ⟨hc, _, _, _, _⟩ := h
  have hlen : images.length = 3 := rfl
  rw [hlen] at hc
  refine ⟨?_, rfl, ?_, ?_, ?_⟩
  · simpa [intervalTick] using hc
  · simp only [validNext, intervalTick, hlen]
    exact ⟨Nat.mod_lt _ (by omega), by omega⟩
  · simp [displayTracks, intervalTick]
  · simp only [intervalTick, hlen]
    exact Nat.mod_lt _ (by omega)

lemma carouselInv_complete {s : CarouselState} (h : CarouselInv s) :
    CarouselInv (handleAnimationComplete s) := by
  obtain ⟨hc, ht, hv, hd, hi⟩ := h
  match hnext : s.next with
  | none =>
      simpa [handleAnimationComplete, hnext] using ⟨hc, ht, hv, hd, hi⟩
  | some n =>
      have hn : n < images.length ∧ n ≠ s.current := by
        simpa [validNext, hnext] using hv
      exact ⟨by simpa [handleAnimationComplete, hnext] using hn.1, by
        simp [handleAnimationComplete, hnext], by
        simp [validNext, handleAnimationComplete, hnext], by
        simp [displayTracks, handleAnimationComplete, hnext], by
        simpa [handleAnimationComplete, hnext] using hn.1⟩

lemma carouselInv_reachable {s : CarouselState} (h : Reachable s) :
    CarouselInv s := by
  induction h with
  | init => exact carouselInv_initial
  | step e t _ ih =>
      cases e with
      | tick => exact carouselInv_tick ih
      | animationComplete => exact carouselInv_complete ih

/-!
Timer and effect lifecycle.  The slide-advance effect (source lines 52-60)
has dependency array `[current]`: React runs it after mount, re-runs it
(cleanup of the old interval, then `setInterval` of a new one) whenever
`current` changes, and runs the cleanup `clearInterval` on unmount.  We model
the component together with the number of armed interval timers and the
`current` value captured by the live effect.  State updates requested on an
unmounted component do not take effect (React semantics); a timer callback
fires only while its interval is armed (`setInterval`/`clearInterval`
semantics).
-/

/-- A component instance: whether it is mounted, how many interval timers
are armed, which `current` value the live effect captured (`none` when no
effect is live), and the React state. -/
structure ComponentState where
  mounted : Bool
  armedTimers : Nat
  effectCurrent : Option Nat
  state : CarouselState
deriving Repr, DecidableEq

/-- React effect synchronisation after a render: if the component is mounted
and the effect's dependency `current` changed (or no effect is live yet),
run the cleanup of the old effect (clearing its interval, source line 59)
and arm a fresh interval (source line 53). -/
def syncEffect (c : ComponentState) : ComponentState :=
  match c.mounted with
  | false => c
  | true =>
      match c.effectCurrent with
      | none =>
          { c with armedTimers := c.armedTimers + 1,
                   effectCurrent := some c.state.current }
      | some ec =>
          if ec = c.state.current then c
          else
            { c with armedTimers := c.armedTimers - 1 + 1,
                     effectCurrent := some c.state.current }

/-- The component right after mounting: initial React state, then the
slide-advance effect runs and arms its interval. -/
def initialComponent : ComponentState :=
  syncEffect
    { mounted := true, armedTimers := 0, effectCurrent := none,
      state := initialState }

/-- Events of the component lifecycle: a firing of the armed interval, a
delivery of the animation-completion callback, and teardown. -/
inductive SysEvent where
  | timerFire
  | animComplete
  | unmount
deriving Repr, DecidableEq

/-- Effect of one lifecycle event.  A timer firing mutates state only if an
interval is still armed; a completion callback mutates state only if the
component is still mounted; unmount runs the effect cleanup, which clears
the interval (source line 59). -/
def applySysEvent : SysEvent → ComponentState → ComponentState
  | SysEvent.timerFire, c =>
      match c.armedTimers with
      | 0 => c
      | _ + 1 => syncEffect { c with state := intervalTick c.state }
  | SysEvent.animComplete, c =>
      match c.mounted with
      | false => c
      | true => syncEffect { c with state := handleAnimationComplete c.state }
  | SysEvent.unmount, c =>
      match c.mounted with
      | false => c
      | true =>
          { c with mounted := false, armedTimers := c.armedTimers - 1,
                   effectCurrent := none }

/-- Component states reachable from the freshly mounted component. -/
inductive SysReachable : ComponentState → Prop
  | init : SysReachable initialComponent
  | step (e : SysEvent) (c : ComponentState) :
      SysReachable c → SysReachable (applySysEvent e c)

/-- Timer discipline: exactly one armed interval while mounted, none after
teardown; the live effect always captured the present `current`. -/
def timerDiscipline (c : ComponentState) : Prop :=
  match c.mounted with
  | true => c.armedTimers = 1 ∧ c.effectCurrent = some c.state.current
  | false => c.armedTimers = 0 ∧ c.effectCurrent = none

lemma timerDiscipline_initial : timerDiscipline initialComponent := by
  simp [timerDiscipline, initialComponent, syncEffect, initialState]

lemma timerDiscipline_step (e : SysEvent) {c : ComponentState}
    (h : timerDiscipline c) : timerDiscipline (applySysEvent e c) := by
  cases e with
  | timerFire =>
      match hm : c.mounted with
      | false =>
          obtain ⟨h0, -⟩ : c.armedTimers = 0 ∧ c.effectCurrent = none := by
            simpa [timerDiscipline, hm] using h
          simpa [applySysEvent, h0] using h
      | true =>
          obtain ⟨h1, h2⟩ : c.armedTimers = 1 ∧
              c.effectCurrent = some c.state.current := by
            simpa [timerDiscipline, hm] using h
          simp [applySysEvent, h1, syncEffect, hm, h2, intervalTick,
                timerDiscipline]
  | animComplete =>
      match hm : c.mounted with
      | false => simpa [applySysEvent, hm] using h
      | true =>
          obtain ⟨h1, h2⟩ : c.armedTimers = 1 ∧
              c.effectCurrent = some c.state.current := by
            simpa [timerDiscipline, hm] using h
          match hnext : c.state.next with
          | none =>
              simp [applySysEvent, hm, syncEffect, handleAnimationComplete,
                    hnext, h2, timerDiscipline, h1]
          | some n =>
              by_cases hn : c.state.current = n
              · simp [applySysEvent, hm, syncEffect, handleAnimationComplete,
                      hnext, h2, hn, timerDiscipline, h1]
              · simp [applySysEvent, hm, syncEffect, handleAnimationComplete,
                      hnext, h2, hn, timerDiscipline, h1]
  | unmount =>
      match hm : c.mounted with
      | false => simpa [applySysEvent, hm] using h
      | true =>
          obtain ⟨h1, -⟩ : c.armedTimers = 1 ∧
              c.effectCurrent = some c.state.current := by
            simpa [timerDiscipline, hm] using h
          simp [applySysEvent, hm, timerDiscipline, h1]

lemma timerDiscipline_reachable {c : ComponentState} (h : SysReachable c) :
    timerDiscipline c := by
  induction h with
  | init => exact timerDiscipline_initial
  | step e t _ ih => exact timerDiscipline_step e ih

/-- Number of alternating tick/completion rounds with no overlap: each round
is one scheduler tick followed by its animation completion. -/
def stepsNoOverlap : Nat → CarouselState
  | 0 => initialState
  | k + 1 => handleAnimationComplete (intervalTick (stepsNoOverlap k))

/-- The carousel fields of the state, as read by the renderer: `current`,
`direction`, `isTransitioning`, `next`, `displayedIndex`. -/
def carouselCore (s : CarouselState) : Nat × Int × Bool × Option Nat × Nat :=
  (s.current, s.direction, s.isTransitioning, s.next, s.displayedIndex)

/-- C1: for every carousel state, a scheduler tick sets `next` to
`(current + 1) % N`, sets `direction` to forward (1), sets
`isTransitioning` to true, sets `displayedIndex` to `(current + 1) % N`,
leaves `current` unchanged, and never produces a backward direction. -/
theorem intervalTick_spec (s : CarouselState) :
    (intervalTick s).next = some ((s.current + 1) % images.length) ∧
    (intervalTick s).direction = 1 ∧
    (intervalTick s).isTransitioning = true ∧
    (intervalTick s).displayedIndex = (s.current + 1) % images.length ∧
    (intervalTick s).current = s.current ∧
    (intervalTick s).direction ≠ -1 := by
  simp [intervalTick]

/-- C2: for every state whose `next` is not none, the animation-completion
handler sets `current` to the pending `next`, clears `next`, ends the
transition, and sets `displayedIndex` to the new `current`. -/
theorem handleAnimationComplete_commits (s : CarouselState) (n : Nat)
    (h : s.next = some n) :
    (handleAnimationComplete s).current = n ∧
    (handleAnimationComplete s).next = none ∧
    (handleAnimationComplete s).isTransitioning = false ∧
    (handleAnimationComplete s).displayedIndex =
      (handleAnimationComplete s).current := by
  simp [handleAnimationComplete, h]

/-- Witness for C2 at the state reached by one tick from the initial state,
whose pending slide is index 1. -/
theorem handleAnimationComplete_commits_witness :
    (handleAnimationComplete (intervalTick initialState)).current = 1 ∧
    (handleAnimationComplete (intervalTick initialState)).next = none ∧
    (handleAnimationComplete (intervalTick initialState)).isTransitioning
      = false ∧
    (handleAnimationComplete (intervalTick initialState)).displayedIndex =
      (handleAnimationComplete (intervalTick initialState)).current :=
  handleAnimationComplete_commits (intervalTick initialState) 1 (by decide)

/-- C3: starting from the initial state, after `k` alternating tick and
completion rounds with no overlap, `current` equals `k mod N` where `N` is
the number of slides. -/
theorem stepsNoOverlap_current (k : Nat) :
    (stepsNoOverlap k).current = k % images.length := by
  induction k with
  | zero => rfl
  | succ k ih =>
      have hlen : images.length = 3 := rfl
      rw [hlen] at ih ⊢
      show (handleAnimationComplete
        (intervalTick (stepsNoOverlap k))).current = (k + 1) % 3
      simp only [handleAnimationComplete, intervalTick, hlen]
      omega

/-- C4: in every reachable state, `isTransitioning` equals the presence of a
pending `next`, and any pending `next` is a valid index in `[0, N)` distinct
from `current`. -/
theorem reachable_transition_invariant (s : CarouselState)
    (h : Reachable s) :
    s.isTransitioning = s.next.isSome ∧ validNext s :=
  ⟨(carouselInv_reachable h).2.1, (carouselInv_reachable h).2.2.1⟩

/-- Witness for C4 at the state reached by one tick from the initial
state. -/
theorem reachable_transition_invariant_witness :
    (applyEvent CarouselEvent.tick initialState).isTransitioning =
      (applyEvent CarouselEvent.tick initialState).next.isSome ∧
    validNext (applyEvent CarouselEvent.tick initialState) :=
  reachable_transition_invariant _
    (Reachable.step CarouselEvent.tick initialState Reachable.init)

/-- C5: in every reachable state, `displayedIndex` equals the pending `next`
while transitioning and equals `current` while idle. -/
theorem reachable_displayTracks (s : CarouselState) (h : Reachable s) :
    displayTracks s :=
  (carouselInv_reachable h).2.2.2.1

/-- Witness for C5 at the state reached by a tick and its completion. -/
theorem reachable_displayTracks_witness :
    displayTracks (applyEvent CarouselEvent.animationComplete
      (applyEvent CarouselEvent.tick initialState)) :=
  reachable_displayTracks _
    (Reachable.step CarouselEvent.animationComplete _
      (Reachable.step CarouselEvent.tick initialState Reachable.init))

/-- C6: in every reachable state, `displayedIndex` lies in `[0, N)` where
`N` is the number of slides. -/
theorem reachable_displayedIndex_lt (s : CarouselState) (h : Reachable s) :
    s.displayedIndex < images.length :=
  (carouselInv_reachable h).2.2.2.2

/-- Witness for C6 at the state reached by two consecutive ticks. -/
theorem reachable_displayedIndex_lt_witness :
    (applyEvent CarouselEvent.tick
      (applyEvent CarouselEvent.tick initialState)).displayedIndex <
      images.length :=
  reachable_displayedIndex_lt _
    (Reachable.step CarouselEvent.tick _
      (Reachable.step CarouselEvent.tick initialState Reachable.init))

/-- C7: the completion handler is idempotent; a second call finds `next`
cleared and is a no-op on every field. -/
theorem handleAnimationComplete_idempotent (s : CarouselState) :
    handleAnimationComplete (handleAnimationComplete s) =
      handleAnimationComplete s := by
  match h : s.next with
  | none => simp [handleAnimationComplete, h]
  | some n => simp [handleAnimationComplete, h]

/-- C8: after teardown (including teardown while transitioning) the interval
is cleared and no timer firing, completion callback, or repeated unmount
changes anything about the component, in particular no carousel state
field. -/
theorem unmounted_component_inert (c : ComponentState) (h : SysReachable c)
    (hm : c.mounted = false) :
    c.armedTimers = 0 ∧
    applySysEvent SysEvent.timerFire c = c ∧
    applySysEvent SysEvent.animComplete c = c ∧
    applySysEvent SysEvent.unmount c = c := by
  obtain ⟨h0, -⟩ : c.armedTimers = 0 ∧ c.effectCurrent = none := by
    simpa [timerDiscipline, hm] using timerDiscipline_reachable h
  exact ⟨h0, by simp [applySysEvent, h0], by simp [applySysEvent, hm],
    by simp [applySysEvent, hm]⟩

/-- Witness for C8 at the component torn down mid-transition: one timer
firing, then unmount. -/
theorem unmounted_component_inert_witness :
    (applySysEvent SysEvent.unmount
      (applySysEvent SysEvent.timerFire initialComponent)).armedTimers
      = 0 ∧
    applySysEvent SysEvent.timerFire
      (applySysEvent SysEvent.unmount
        (applySysEvent SysEvent.timerFire initialComponent)) =
      applySysEvent SysEvent.unmount
        (applySysEvent SysEvent.timerFire initialComponent) ∧
    applySysEvent SysEvent.animComplete
      (applySysEvent SysEvent.unmount
        (applySysEvent SysEvent.timerFire initialComponent)) =
      applySysEvent SysEvent.unmount
        (applySysEvent SysEvent.timerFire initialComponent) ∧
    applySysEvent SysEvent.unmount
      (applySysEvent SysEvent.unmount
        (applySysEvent SysEvent.timerFire initialComponent)) =
      applySysEvent SysEvent.unmount
        (applySysEvent SysEvent.timerFire initialComponent) :=
  unmounted_component_inert _
    (SysReachable.step SysEvent.unmount _
      (SysReachable.step SysEvent.timerFire initialComponent
        SysReachable.init))
    (by decide)

/-- C9: in every reachable component state at most one interval timer is
armed, and exactly one while mounted; the live effect always captured the
present `current`, i.e. whenever `current` changed the old interval was
cleared and a fresh one armed. -/
theorem timer_unique (c : ComponentState) (h : SysReachable c) :
    c.armedTimers ≤ 1 ∧ timerDiscipline c := by
  have ht := timerDiscipline_reachable h
  refine ⟨?_, ht⟩
  match hm : c.mounted with
  | true =>
      obtain ⟨h1, -⟩ : c.armedTimers = 1 ∧
          c.effectCurrent = some c.state.current := by
        simpa [timerDiscipline, hm] using ht
      omega
  | false =>
      obtain ⟨h1, -⟩ : c.armedTimers = 0 ∧ c.effectCurrent = none := by
        simpa [timerDiscipline, hm] using ht
      omega

/-- Witness for C9 at the component after a completion that changed
`current` and so rearmed the timer. -/
theorem timer_unique_witness :
    (applySysEvent SysEvent.animComplete
      (applySysEvent SysEvent.timerFire initialComponent)).armedTimers
      ≤ 1 ∧
    timerDiscipline (applySysEvent SysEvent.animComplete
      (applySysEvent SysEvent.timerFire initialComponent)) :=
  timer_unique _
    (SysReachable.step SysEvent.animComplete _
      (SysReachable.step SysEvent.timerFire initialComponent
        SysReachable.init))

/-- C10: every hover handler changes at most the `hoveredNav` and
`hoveredMe` fields and leaves every carousel field (`current`, `direction`,
`isTransitioning`, `next`, `displayedIndex`) unchanged, for every state and
hover event. -/
theorem hover_frame (s : CarouselState) (idx : Nat) :
    carouselCore (navItemMouseEnter idx s) = carouselCore s ∧
    carouselCore (navItemMouseLeave s) = carouselCore s ∧
    carouselCore (moreAboutMeMouseEnter s) = carouselCore s ∧
    carouselCore (moreAboutMeMouseLeave s) = carouselCore s ∧
    (navItemMouseEnter idx s).hoveredMe = s.hoveredMe ∧
    (navItemMouseLeave s).hoveredMe = s.hoveredMe ∧
    (moreAboutMeMouseEnter s).hoveredNav = s.hoveredNav ∧
    (moreAboutMeMouseLeave s).hoveredNav = s.hoveredNav := by
  simp [carouselCore, navItemMouseEnter, navItemMouseLeave,
        moreAboutMeMouseEnter, moreAboutMeMouseLeave]
